import Mathlib

/-!
Verification of the panic-capturing Gin middleware of bugsnag-go
(src/gin/bugsnaggin.go) against its specification.

The middleware orchestration (function AutoNotify in src/gin/bugsnaggin.go)
is embedded shallowly: each collaborator call it makes is recorded in an
event trace, and the per-request control flow (duplicate request, derive
contexts, install the deferred report, run the downstream handler,
re-propagate any panic) is a pure Lean function over that trace.

The error-reporting collaborator itself (package bugsnag: Configure,
StartSession, AttachRequestData, New, Notifier.AutoNotify, the severity
constants) is not among the source files; its operations are modelled from
the specification, each marked `Modelled from the spec:` in its doc comment.
-/

/-- Modelled from the spec: the collaborator severity level tag for
"error" severity (constant SeverityError of package bugsnag, not in the
sources). -/
def SeverityError : String := "error"

/-- Modelled from the spec: the collaborator severity reason tag
"unhandled middleware error" (constant SeverityReasonUnhandledMiddlewareError
of package bugsnag, not in the sources). -/
def SeverityReasonUnhandledMiddlewareError : String := "unhandled middleware error"

/-- Modelled from the spec: the collaborator severity reason tag used for
panics recovered by the package-level deferred reporting helpers (constant
SeverityReasonHandledPanic of package bugsnag, not in the sources; the test
file uses it as a tag distinct from the unhandled-middleware-error tag). -/
def SeverityReasonHandledPanic : String := "handled panic"

/-- From src/gin/bugsnaggin.go line 8: `const FrameworkName string = "Gin"`. -/
def FrameworkName : String := "Gin"

/-- Modelled from the spec: the collaborator Configuration value (type
bugsnag.Configuration, not in the sources).  Only fields the claims
mention are kept; a field left unset does not overwrite the global value. -/
structure Configuration where
  apiKey : Option String
  endpointNotify : Option String
  autoCaptureSessions : Option Bool
  deriving DecidableEq, Repr

/-- Modelled from the spec: the collaborator process-wide configuration
state that bugsnag.Configure updates.  Auto session capture is enabled by
default, as the test TestConfigureTwice records. -/
structure GlobalConfig where
  apiKey : String
  endpointNotify : String
  autoCaptureSessions : Bool
  deriving DecidableEq, Repr

def GlobalConfig.default : GlobalConfig :=
  { apiKey := "", endpointNotify := "", autoCaptureSessions := true }

/-- Modelled from the spec: bugsnag.Configure — global, process-wide,
last-write-wins per overlapping field (a field the new value sets replaces
the stored one; a field it leaves unset is kept). -/
def Configure (c : Configuration) (g : GlobalConfig) : GlobalConfig :=
  { apiKey := c.apiKey.getD g.apiKey,
    endpointNotify := c.endpointNotify.getD g.endpointNotify,
    autoCaptureSessions := c.autoCaptureSessions.getD g.autoCaptureSessions }

/-- From src/gin/bugsnaggin.go lines 23-28: the severity/attribution
metadata value (type bugsnag.HandledState). -/
structure HandledState where
  severityReason : String
  originalSeverity : String
  unhandled : Bool
  framework : String
  deriving DecidableEq, Repr

/-- A Go panic value: an error value carrying a message, a plain string,
or some other opaque value. -/
inductive PanicVal
  | err (msg : String)
  | str (s : String)
  | other (n : Nat)
  deriving DecidableEq, Repr

/-- The message observed when the recovered panic value is printed. -/
def PanicVal.message : PanicVal → String
  | .err m => m
  | .str s => s
  | .other n => toString n

/-- One derivation step in a request-scoped context chain. -/
inductive CtxOp
  | sessionStart
  | requestData (reqId : Nat)
  deriving DecidableEq, Repr

/-- A request-scoped context: the chain of derivations applied to the
inbound request context, oldest first.  The original context is `[]`
relative to the request. -/
abbrev Ctx := List CtxOp

/-- Modelled from the spec: bugsnag.StartSession derives a new context by
starting or resuming a delivery session on it. -/
def StartSession (c : Ctx) : Ctx := c ++ [CtxOp.sessionStart]

/-- Modelled from the spec: bugsnag.AttachRequestData derives a new
context recording the request metadata for later event construction. -/
def AttachRequestData (c : Ctx) (reqId : Nat) : Ctx := c ++ [CtxOp.requestData reqId]

/-- An HTTP request as the middleware sees it: an identity for the
underlying object, its context, and its remaining (mutable) content. -/
structure Request where
  reqId : Nat
  ctx : Ctx
  payload : Nat
  deriving DecidableEq, Repr

/-- `r.WithContext ctx` from net/http: a copy of the request carrying the
given context. -/
def Request.withCtx (r : Request) (c : Ctx) : Request := { r with ctx := c }

/-- The gin request context: the current request plus the response written
so far. -/
structure GinContext where
  request : Request
  response : Nat
  deriving DecidableEq, Repr

/-- A variadic `interface\x7b\x7d` argument of AutoNotify, discriminated the
way the Go type switch in src/gin/bugsnaggin.go lines 17-21 does. -/
inductive RawDatum
  | config (c : Configuration)
  | hstate (s : HandledState)
  | req (r : Request)
  | other (n : Nat)
  deriving DecidableEq, Repr

/-- The Go type assertion `datum.(bugsnag.Configuration)`. -/
def RawDatum.asConfig : RawDatum → Option Configuration
  | .config c => some c
  | _ => none

/-- One observable collaborator call made while building or running the
middleware, in program order. -/
inductive CallEv
  | configure (c : Configuration)
  | copyRequest (r : Request)
  | sessionStart (before after : Ctx)
  | requestData (before : Ctx) (reqId : Nat) (after : Ctx)
  | newNotifier (args : List RawDatum)
  | flushSessionsOnRepanic (b : Bool)
  | next (c : GinContext)
  | report (ctx : Ctx) (r : Request) (v : PanicVal) (s : HandledState)
  deriving DecidableEq, Repr

/-- Modelled from the spec: the deferred Notifier.AutoNotify call —
inspects the currently-unwinding panic; if there is none it emits no
event, otherwise it constructs exactly one event tagged with the supplied
severity/attribution metadata, and the panic continues unwinding with its
value unchanged. -/
def notifierAutoNotify (ctx : Ctx) (r : Request) (s : HandledState) :
    Option PanicVal → List CallEv
  | none => []
  | some v => [CallEv.report ctx r v s]

/-- A downstream handler: consumes the gin context (possibly mutating it)
and either returns normally (`none`) or panics with a value (`some v`). -/
def Downstream : Type := GinContext → GinContext × Option PanicVal

/-- From src/gin/bugsnaggin.go lines 23-28: the one HandledState value
constructed at build time. -/
def autoNotifyState : HandledState :=
  { severityReason := SeverityReasonUnhandledMiddlewareError,
    originalSeverity := SeverityError,
    unhandled := true,
    framework := FrameworkName }

/-- What AutoNotify computes before returning its handler
(src/gin/bugsnaggin.go lines 16-29): the Configure calls made, the
attribution metadata, and the raw-data list the handler closes over. -/
structure BuildResult where
  buildEvents : List CallEv
  state : HandledState
  closedRawData : List RawDatum
  deriving Repr

/-- The construction phase of AutoNotify (src/gin/bugsnaggin.go lines
15-29): apply every Configuration among the raw data via Configure, in
order; build the HandledState; append it to the raw data. -/
def AutoNotifyBuild (rawData : List RawDatum) : BuildResult :=
  { buildEvents := rawData.filterMap fun d =>
      match d with
      | RawDatum.config c => some (CallEv.configure c)
      | _ => none,
    state := autoNotifyState,
    closedRawData := rawData ++ [RawDatum.hstate autoNotifyState] }

/-- The process-wide configuration after the construction phase: the
Configure calls of src/gin/bugsnaggin.go lines 17-21 folded over the
global state, values of other types ignored. -/
def applyBuildConfig (rawData : List RawDatum) (g : GlobalConfig) : GlobalConfig :=
  rawData.foldl
    (fun g d =>
      match d with
      | RawDatum.config c => Configure c g
      | _ => g)
    g

/-- Result of one request through the middleware: the collaborator calls
made, the final gin context, and `some v` when a panic with value v is
propagating to the caller. -/
structure RunResult where
  events : List CallEv
  final : GinContext
  outcome : Option PanicVal
  deriving Repr

/-- The gin context the downstream handler observes: the request is the
entry-time duplicate carrying the context enriched by StartSession and
then AttachRequestData (src/gin/bugsnaggin.go lines 31-35). -/
def enrichedCtx (c : GinContext) : GinContext :=
  let newCtx := AttachRequestData (StartSession c.request.ctx) c.request.reqId
  { c with request := c.request.withCtx newCtx }

/-- The per-request body of the handler returned by AutoNotify
(src/gin/bugsnaggin.go lines 30-42), over the closed raw data and
metadata: duplicate the request, derive the session and request-data
contexts, install the enriched request, build the request-bound notifier,
disable session flush on repanic, defer the report, run the downstream
handler, and let its panic (if any) continue unwinding after the deferred
report ran. -/
def autoNotifyHandle (closedRawData : List RawDatum) (s : HandledState)
    (down : Downstream) (c : GinContext) : RunResult :=
  let r := c.request
  let ctx0 := r.ctx
  let ctx1 := StartSession ctx0
  let ctx2 := AttachRequestData ctx1 r.reqId
  let c1 : GinContext := { c with request := r.withCtx ctx2 }
  let notifierArgs := closedRawData ++ [RawDatum.req r]
  let stepped := down c1
  { events :=
      [CallEv.copyRequest r,
       CallEv.sessionStart ctx0 ctx1,
       CallEv.requestData ctx1 r.reqId ctx2,
       CallEv.newNotifier notifierArgs,
       CallEv.flushSessionsOnRepanic false,
       CallEv.next c1]
      ++ notifierAutoNotify ctx2 r s stepped.2,
    final := stepped.1,
    outcome := stepped.2 }

/-- A full invocation of the middleware on one request: the construction
phase of AutoNotify followed by the per-request handler it returned. -/
def AutoNotifyRun (rawData : List RawDatum) (down : Downstream)
    (c : GinContext) : RunResult :=
  let b := AutoNotifyBuild rawData
  let r := autoNotifyHandle b.closedRawData b.state down c
  { r with events := b.buildEvents ++ r.events }

/-- The attribution metadata of each report event of a trace, in order. -/
def reportStates (evs : List CallEv) : List HandledState :=
  evs.filterMap fun e =>
    match e with
    | CallEv.report _ _ _ s => some s
    | _ => none

/-- The (context, request, panic value) arguments of each report event of
a trace, in order. -/
def reportArgs (evs : List CallEv) : List (Ctx × Request × PanicVal) :=
  evs.filterMap fun e =>
    match e with
    | CallEv.report ctx r v _ => some (ctx, r, v)
    | _ => none

/-- The argument lists of the notifier constructions of a trace. -/
def notifierArgLists (evs : List CallEv) : List (List RawDatum) :=
  evs.filterMap fun e =>
    match e with
    | CallEv.newNotifier args => some args
    | _ => none

/-- The gin contexts passed to the downstream chain by the next calls of a
trace. -/
def nextContexts (evs : List CallEv) : List GinContext :=
  evs.filterMap fun e =>
    match e with
    | CallEv.next c => some c
    | _ => none

/-- The requests captured by the duplication steps of a trace. -/
def copiedRequests (evs : List CallEv) : List Request :=
  evs.filterMap fun e =>
    match e with
    | CallEv.copyRequest r => some r
    | _ => none

/-- Phase tags used to state ordering properties of a trace. -/
inductive PhaseTag
  | dup
  | session
  | attach
  | run
  deriving DecidableEq, Repr

/-- Tags the duplication, session-derivation, metadata-attachment and
downstream-invocation events of a trace, in trace order. -/
def phaseTags (evs : List CallEv) : List PhaseTag :=
  evs.filterMap fun e =>
    match e with
    | CallEv.copyRequest _ => some PhaseTag.dup
    | CallEv.sessionStart _ _ => some PhaseTag.session
    | CallEv.requestData _ _ _ => some PhaseTag.attach
    | CallEv.next _ => some PhaseTag.run
    | _ => none

/-- Recognizes a Configure event. -/
def isConfigureEv : CallEv → Bool
  | CallEv.configure _ => true
  | _ => false

/-- Tags only the duplication and downstream-invocation events of a
trace, in trace order. -/
def dupRunTags (evs : List CallEv) : List PhaseTag :=
  evs.filterMap fun e =>
    match e with
    | CallEv.copyRequest _ => some PhaseTag.dup
    | CallEv.next _ => some PhaseTag.run
    | _ => none

/-- From src/bugsnag_test.go line 36: the API key the tests configure. -/
def testAPIKey : String := "166f5ad3590596f9aa8d601ea89af845"

/-- From src/bugsnag_test.go lines 406-417: the sample configuration the
tests build, restricted to the fields of the model (API key and notify
endpoint). -/
def generateSampleConfig (endpoint : String) : Configuration :=
  { apiKey := some testAPIKey,
    endpointNotify := some endpoint,
    autoCaptureSessions := none }

/-- The downstream handler of the eggs scenario: panics with the error
value eggs, as src/bugsnag_test.go line 235 does. -/
def eggsDownstream : Downstream :=
  fun g => (g, some (PanicVal.err "eggs"))

/-- A concrete inbound request for the eggs scenario. -/
def eggsInbound : GinContext :=
  { request := { reqId := 1, ctx := [], payload := 7 }, response := 0 }

/-- The eggs scenario: the middleware constructed with the sample
configuration (API key and endpoint set), run on a downstream handler
that panics with the error value eggs. -/
def eggsRun : RunResult :=
  AutoNotifyRun [RawDatum.config (generateSampleConfig "https://notify.example")]
    eggsDownstream eggsInbound

/-- Helper: the Configure calls of the construction phase are exactly the
Configuration values among the raw data, in order. -/
theorem buildEvents_eq (rawData : List RawDatum) :
    (AutoNotifyBuild rawData).buildEvents
      = (rawData.filterMap RawDatum.asConfig).map CallEv.configure := by
  induction rawData with
  | nil => rfl
  | cons d tl ih =>
    cases d <;>
      simpa [AutoNotifyBuild, RawDatum.asConfig, List.filterMap_cons] using ih

/-- Helper: the global configuration after construction is the fold of
Configure over the Configuration values among the raw data, in order. -/
theorem applyBuildConfig_eq (rawData : List RawDatum) (g : GlobalConfig) :
    applyBuildConfig rawData g
      = (rawData.filterMap RawDatum.asConfig).foldl (fun g c => Configure c g) g := by
  induction rawData generalizing g with
  | nil => rfl
  | cons d tl ih =>
    cases d <;> simp [applyBuildConfig, RawDatum.asConfig, List.filterMap_cons] <;>
      simpa [applyBuildConfig] using ih _

/-- Helper: the construction phase closes over the raw data with the
attribution metadata appended. -/
theorem closedRawData_eq (rawData : List RawDatum) :
    (AutoNotifyBuild rawData).closedRawData
      = rawData ++ [RawDatum.hstate autoNotifyState] := rfl

/-- Helper: the construction phase always produces the one build-time
attribution metadata value. -/
theorem buildState_eq (rawData : List RawDatum) :
    (AutoNotifyBuild rawData).state = autoNotifyState := rfl

/-- Helper: an extractor that skips Configure events ignores the
construction-phase block of a trace. -/
theorem filterMap_configure_block {α : Type} (f : CallEv → Option α)
    (hf : ∀ c, f (CallEv.configure c) = none)
    (l : List Configuration) (rest : List CallEv) :
    ((l.map CallEv.configure) ++ rest).filterMap f = rest.filterMap f := by
  induction l with
  | nil => rfl
  | cons a tl ih => simp [List.filterMap_cons, hf, ih]

/-- Helper: the full trace of one middleware invocation, in program order:
the Configure calls from construction, then the duplication, the session
derivation, the request-metadata attachment, the notifier construction
over the raw data with metadata and duplicate appended, the
flush-on-repanic toggle, the downstream invocation on the enriched
context, and finally the deferred report step applied to the downstream
outcome. -/
theorem autoNotifyRun_events_eq (rawData : List RawDatum) (down : Downstream)
    (c : GinContext) :
    (AutoNotifyRun rawData down c).events =
      ((rawData.filterMap RawDatum.asConfig).map CallEv.configure)
      ++ ([CallEv.copyRequest c.request,
           CallEv.sessionStart c.request.ctx (StartSession c.request.ctx),
           CallEv.requestData (StartSession c.request.ctx) c.request.reqId
             (AttachRequestData (StartSession c.request.ctx) c.request.reqId),
           CallEv.newNotifier
             (rawData ++ [RawDatum.hstate autoNotifyState, RawDatum.req c.request]),
           CallEv.flushSessionsOnRepanic false,
           CallEv.next (enrichedCtx c)]
          ++ notifierAutoNotify
               (AttachRequestData (StartSession c.request.ctx) c.request.reqId)
               c.request autoNotifyState (down (enrichedCtx c)).2) := by
  simp [AutoNotifyRun, autoNotifyHandle, buildEvents_eq, closedRawData_eq,
    buildState_eq, enrichedCtx, Request.withCtx]

/-- Helper: the outcome of one middleware invocation is exactly the
downstream outcome on the enriched context. -/
theorem autoNotifyRun_outcome_eq (rawData : List RawDatum) (down : Downstream)
    (c : GinContext) :
    (AutoNotifyRun rawData down c).outcome = (down (enrichedCtx c)).2 := by
  simp [AutoNotifyRun, autoNotifyHandle, enrichedCtx, Request.withCtx]

/-- Helper: the final gin context of one middleware invocation is exactly
the downstream result on the enriched context. -/
theorem autoNotifyRun_final_eq (rawData : List RawDatum) (down : Downstream)
    (c : GinContext) :
    (AutoNotifyRun rawData down c).final = (down (enrichedCtx c)).1 := by
  simp [AutoNotifyRun, autoNotifyHandle, enrichedCtx, Request.withCtx]

/-- Helper: the attribution metadata of the reports of one invocation:
none when downstream returns normally, exactly the build-time metadata
when it panics. -/
theorem reportStates_run_eq (rawData : List RawDatum) (down : Downstream)
    (c : GinContext) :
    reportStates (AutoNotifyRun rawData down c).events
      = ((down (enrichedCtx c)).2.map fun _ => autoNotifyState).toList := by
  rw [autoNotifyRun_events_eq]
  simp only [reportStates]
  rw [filterMap_configure_block _ (fun _ => rfl)]
  cases hdn : (down (enrichedCtx c)).2 <;>
    simp [notifierAutoNotify, List.filterMap_cons]

/-- Helper: the report arguments of one invocation: none when downstream
returns normally, exactly the entry-derived context, the entry duplicate
and the panic value when it panics. -/
theorem reportArgs_run_eq (rawData : List RawDatum) (down : Downstream)
    (c : GinContext) :
    reportArgs (AutoNotifyRun rawData down c).events
      = ((down (enrichedCtx c)).2.map fun v =>
          (AttachRequestData (StartSession c.request.ctx) c.request.reqId,
           c.request, v)).toList := by
  rw [autoNotifyRun_events_eq]
  simp only [reportArgs]
  rw [filterMap_configure_block _ (fun _ => rfl)]
  cases hdn : (down (enrichedCtx c)).2 <;>
    simp [notifierAutoNotify, List.filterMap_cons]

/-- Helper: exactly one notifier is constructed per invocation, over the
raw data with the metadata and the entry duplicate appended. -/
theorem notifierArgLists_run_eq (rawData : List RawDatum) (down : Downstream)
    (c : GinContext) :
    notifierArgLists (AutoNotifyRun rawData down c).events
      = [rawData ++ [RawDatum.hstate autoNotifyState, RawDatum.req c.request]] := by
  rw [autoNotifyRun_events_eq]
  simp only [notifierArgLists]
  rw [filterMap_configure_block _ (fun _ => rfl)]
  cases hdn : (down (enrichedCtx c)).2 <;>
    simp [notifierAutoNotify, List.filterMap_cons]

/-- Helper: the downstream chain is invoked exactly once per invocation,
on the enriched context. -/
theorem nextContexts_run_eq (rawData : List RawDatum) (down : Downstream)
    (c : GinContext) :
    nextContexts (AutoNotifyRun rawData down c).events = [enrichedCtx c] := by
  rw [autoNotifyRun_events_eq]
  simp only [nextContexts]
  rw [filterMap_configure_block _ (fun _ => rfl)]
  cases hdn : (down (enrichedCtx c)).2 <;>
    simp [notifierAutoNotify, List.filterMap_cons]

/-- Helper: the request is duplicated exactly once per invocation, at
entry, before any mutation. -/
theorem copiedRequests_run_eq (rawData : List RawDatum) (down : Downstream)
    (c : GinContext) :
    copiedRequests (AutoNotifyRun rawData down c).events = [c.request] := by
  rw [autoNotifyRun_events_eq]
  simp only [copiedRequests]
  rw [filterMap_configure_block _ (fun _ => rfl)]
  cases hdn : (down (enrichedCtx c)).2 <;>
    simp [notifierAutoNotify, List.filterMap_cons]

/-- Helper: one invocation performs the duplication, the session
derivation, the metadata attachment and the downstream invocation exactly
once each, in that order. -/
theorem phaseTags_run_eq (rawData : List RawDatum) (down : Downstream)
    (c : GinContext) :
    phaseTags (AutoNotifyRun rawData down c).events
      = [PhaseTag.dup, PhaseTag.session, PhaseTag.attach, PhaseTag.run] := by
  rw [autoNotifyRun_events_eq]
  simp only [phaseTags]
  rw [filterMap_configure_block _ (fun _ => rfl)]
  cases hdn : (down (enrichedCtx c)).2 <;>
    simp [notifierAutoNotify, List.filterMap_cons]

/-- Helper: the duplication and the downstream invocation happen exactly
once each per invocation, the duplication strictly first. -/
theorem dupRunTags_run_eq (rawData : List RawDatum) (down : Downstream)
    (c : GinContext) :
    dupRunTags (AutoNotifyRun rawData down c).events
      = [PhaseTag.dup, PhaseTag.run] := by
  rw [autoNotifyRun_events_eq]
  simp only [dupRunTags]
  rw [filterMap_configure_block _ (fun _ => rfl)]
  cases hdn : (down (enrichedCtx c)).2 <;>
    simp [notifierAutoNotify, List.filterMap_cons]

/-- Helper: the deferred report step never emits a Configure call. -/
theorem notifierAutoNotify_no_configure (ctx : Ctx) (r : Request)
    (s : HandledState) (o : Option PanicVal) :
    (notifierAutoNotify ctx r s o).filter isConfigureEv = [] := by
  cases o <;> rfl

/-- C1: a panic of the downstream handler propagates to the caller with
its value unchanged after the deferred report step — the middleware never
converts a panic into a normal return and never alters the carried
value. -/
theorem autoNotify_repanics_with_same_value (rawData : List RawDatum)
    (down : Downstream) (c : GinContext) (V : PanicVal)
    (h : (down (enrichedCtx c)).2 = some V) :
    (AutoNotifyRun rawData down c).outcome = some V := by
  rw [autoNotifyRun_outcome_eq, h]

/-- Witness for C1: a downstream panic with the error value boom is
re-raised as exactly that value. -/
theorem autoNotify_repanics_with_same_value_witness :
    (AutoNotifyRun [] (fun g => (g, some (PanicVal.err "boom")))
      { request := { reqId := 0, ctx := [], payload := 0 }, response := 0 }).outcome
      = some (PanicVal.err "boom") :=
  autoNotify_repanics_with_same_value [] _ _ _ rfl

/-- C2: when the downstream handler panics, exactly one report is
attempted, and its attribution metadata is the immutable build-time
HandledState with severity reason unhandled-middleware-error, original
severity error, unhandled true and framework Gin. -/
theorem autoNotify_reports_once_with_build_metadata (rawData : List RawDatum)
    (down : Downstream) (c : GinContext) (V : PanicVal)
    (h : (down (enrichedCtx c)).2 = some V) :
    reportStates (AutoNotifyRun rawData down c).events = [autoNotifyState]
    ∧ autoNotifyState =
        { severityReason := SeverityReasonUnhandledMiddlewareError,
          originalSeverity := SeverityError,
          unhandled := true,
          framework := FrameworkName }
    ∧ FrameworkName = "Gin" := by
  refine ⟨?_, rfl, rfl⟩
  rw [reportStates_run_eq, h]
  rfl

/-- Witness for C2: a concrete panicking downstream produces exactly one
report carrying the build-time metadata. -/
theorem autoNotify_reports_once_with_build_metadata_witness :
    reportStates (AutoNotifyRun [RawDatum.other 3]
        (fun g => (g, some (PanicVal.str "pow")))
        { request := { reqId := 2, ctx := [], payload := 1 }, response := 0 }).events
      = [autoNotifyState]
    ∧ autoNotifyState =
        { severityReason := SeverityReasonUnhandledMiddlewareError,
          originalSeverity := SeverityError,
          unhandled := true,
          framework := FrameworkName }
    ∧ FrameworkName = "Gin" :=
  autoNotify_reports_once_with_build_metadata [RawDatum.other 3] _ _ _ rfl

/-- C3: when the downstream handler completes normally, the deferred
report step emits no event and the downstream result is returned
unmodified. -/
theorem autoNotify_normal_completion_emits_nothing (rawData : List RawDatum)
    (down : Downstream) (c : GinContext)
    (h : (down (enrichedCtx c)).2 = none) :
    reportStates (AutoNotifyRun rawData down c).events = []
    ∧ (AutoNotifyRun rawData down c).final = (down (enrichedCtx c)).1
    ∧ (AutoNotifyRun rawData down c).outcome = none := by
  refine ⟨?_, autoNotifyRun_final_eq rawData down c, ?_⟩
  · rw [reportStates_run_eq, h]
    rfl
  · rw [autoNotifyRun_outcome_eq, h]

/-- Witness for C3: a concrete downstream that writes the response and
returns normally yields no report, its response untouched and no
panic. -/
theorem autoNotify_normal_completion_emits_nothing_witness :
    reportStates (AutoNotifyRun []
        (fun g => ({ g with response := 42 }, none))
        { request := { reqId := 4, ctx := [], payload := 0 }, response := 0 }).events
      = []
    ∧ (AutoNotifyRun []
        (fun g => ({ g with response := 42 }, none))
        { request := { reqId := 4, ctx := [], payload := 0 }, response := 0 }).final
      = ((fun (g : GinContext) => ({ g with response := 42 }, (none : Option PanicVal)))
          (enrichedCtx { request := { reqId := 4, ctx := [], payload := 0 }, response := 0 })).1
    ∧ (AutoNotifyRun []
        (fun g => ({ g with response := 42 }, none))
        { request := { reqId := 4, ctx := [], payload := 0 }, response := 0 }).outcome
      = none :=
  autoNotify_normal_completion_emits_nothing [] _ _ rfl

/-- C4: the session-starting context derivation is performed before the
request-metadata attachment, and the downstream handler, invoked
afterwards, observes the context enriched by both derivations — a strict
extension of the original request context, not the original. -/
theorem autoNotify_session_then_requestdata_then_downstream
    (rawData : List RawDatum) (down : Downstream) (c : GinContext) :
    phaseTags (AutoNotifyRun rawData down c).events
      = [PhaseTag.dup, PhaseTag.session, PhaseTag.attach, PhaseTag.run]
    ∧ nextContexts (AutoNotifyRun rawData down c).events = [enrichedCtx c]
    ∧ (enrichedCtx c).request.ctx
        = AttachRequestData (StartSession c.request.ctx) c.request.reqId
    ∧ (enrichedCtx c).request.ctx.length = c.request.ctx.length + 2 := by
  refine ⟨phaseTags_run_eq rawData down c, nextContexts_run_eq rawData down c,
    rfl, ?_⟩
  simp [enrichedCtx, Request.withCtx, AttachRequestData, StartSession]

/-- C5: at construction, every raw-data value of the Configuration type
is applied via the global Configure operation in the order given,
last-write-wins per overlapping field, values of any other type are
silently ignored, and all Configure calls precede every per-request
event of the trace. -/
theorem autoNotify_configuration_applied_at_build (rawData : List RawDatum)
    (g : GlobalConfig) :
    applyBuildConfig rawData g
      = (rawData.filterMap RawDatum.asConfig).foldl (fun g c => Configure c g) g
    ∧ (∀ s l, applyBuildConfig (RawDatum.hstate s :: l) g = applyBuildConfig l g)
    ∧ (∀ r l, applyBuildConfig (RawDatum.req r :: l) g = applyBuildConfig l g)
    ∧ (∀ n l, applyBuildConfig (RawDatum.other n :: l) g = applyBuildConfig l g)
    ∧ (∀ g0 c1 k oe oa,
        (Configure
          { apiKey := some k, endpointNotify := oe, autoCaptureSessions := oa }
          (Configure c1 g0)).apiKey = k)
    ∧ (∀ g0 c1 ok oe b,
        (Configure
          { apiKey := ok, endpointNotify := oe, autoCaptureSessions := some b }
          (Configure c1 g0)).autoCaptureSessions = b)
    ∧ (∀ down c,
        (AutoNotifyRun rawData down c).events
          = ((rawData.filterMap RawDatum.asConfig).map CallEv.configure)
            ++ (autoNotifyHandle (AutoNotifyBuild rawData).closedRawData
                  autoNotifyState down c).events)
    ∧ (∀ down c,
        ((autoNotifyHandle (AutoNotifyBuild rawData).closedRawData
            autoNotifyState down c).events.filter isConfigureEv) = []) := by
  refine ⟨applyBuildConfig_eq rawData g,
    fun s l => rfl, fun r l => rfl, fun n l => rfl,
    fun g0 c1 k oe oa => rfl, fun g0 c1 ok oe b => rfl, ?_, ?_⟩
  · intro down c
    simp [AutoNotifyRun, buildEvents_eq, buildState_eq]
  · intro down c
    simp [autoNotifyHandle, isConfigureEv, List.filter_append, List.filter_cons,
      notifierAutoNotify_no_configure]

/-- C6: the duplication of the inbound request happens exactly once per
request, captures the request as it was at entry, and occurs strictly
before the downstream chain is invoked. -/
theorem autoNotify_duplicates_before_downstream (rawData : List RawDatum)
    (down : Downstream) (c : GinContext) :
    copiedRequests (AutoNotifyRun rawData down c).events = [c.request]
    ∧ dupRunTags (AutoNotifyRun rawData down c).events
        = [PhaseTag.dup, PhaseTag.run] :=
  ⟨copiedRequests_run_eq rawData down c, dupRunTags_run_eq rawData down c⟩

/-- C7: in the eggs scenario — middleware constructed with a
configuration setting an API key and an endpoint, downstream panicking
with the error value eggs — the re-raised panic carries the message eggs,
exactly one report is attempted with original severity error and severity
reason unhandled-middleware-error, and the global configuration holds the
configured endpoint and API key when the event is delivered. -/
theorem autoNotify_eggs_scenario :
    eggsRun.outcome = some (PanicVal.err "eggs")
    ∧ (PanicVal.err "eggs").message = "eggs"
    ∧ reportStates eggsRun.events = [autoNotifyState]
    ∧ autoNotifyState.originalSeverity = "error"
    ∧ autoNotifyState.severityReason = SeverityReasonUnhandledMiddlewareError
    ∧ (applyBuildConfig
        [RawDatum.config (generateSampleConfig "https://notify.example")]
        GlobalConfig.default).endpointNotify = "https://notify.example"
    ∧ (applyBuildConfig
        [RawDatum.config (generateSampleConfig "https://notify.example")]
        GlobalConfig.default).apiKey = testAPIKey :=
  ⟨rfl, rfl, rfl, rfl, rfl, rfl, rfl⟩

/-- C8: construction never fails — for every input sequence it yields the
same total result shape — and repeated invocations, with the same or even
different raw data, produce handlers whose attribution metadata values
are equal field for field. -/
theorem autoNotify_build_total_and_metadata_stable (rd1 rd2 : List RawDatum) :
    (AutoNotifyBuild rd1).state = (AutoNotifyBuild rd2).state
    ∧ (AutoNotifyBuild rd1).state =
        { severityReason := SeverityReasonUnhandledMiddlewareError,
          originalSeverity := SeverityError,
          unhandled := true,
          framework := FrameworkName }
    ∧ AutoNotifyBuild rd1 =
        { buildEvents := (rd1.filterMap RawDatum.asConfig).map CallEv.configure,
          state := autoNotifyState,
          closedRawData := rd1 ++ [RawDatum.hstate autoNotifyState] } := by
  refine ⟨rfl, rfl, ?_⟩
  simp only [AutoNotifyBuild, BuildResult.mk.injEq, and_true]
  simpa [AutoNotifyBuild] using buildEvents_eq rd1

/-- C9: the arguments of the deferred report are fixed at entry — the
report receives the context derived at entry and the request duplicated
at entry, while the downstream handler observes a context derived from
that duplicate; whatever the downstream handler does to the framework
context cannot change the reported pair. -/
theorem autoNotify_report_args_fixed_at_entry (rawData : List RawDatum)
    (down : Downstream) (c : GinContext) (V : PanicVal)
    (h : (down (enrichedCtx c)).2 = some V) :
    reportArgs (AutoNotifyRun rawData down c).events
      = [(AttachRequestData (StartSession c.request.ctx) c.request.reqId,
          c.request, V)]
    ∧ nextContexts (AutoNotifyRun rawData down c).events = [enrichedCtx c]
    ∧ (enrichedCtx c).request
        = c.request.withCtx
            (AttachRequestData (StartSession c.request.ctx) c.request.reqId) := by
  refine ⟨?_, nextContexts_run_eq rawData down c, rfl⟩
  rw [reportArgs_run_eq, h]
  rfl

/-- Witness for C9: a downstream handler that replaces the framework
context's request wholesale still leaves the reported pair at the
entry-time context and duplicate. -/
theorem autoNotify_report_args_fixed_at_entry_witness :
    reportArgs (AutoNotifyRun []
        (fun g => ({ g with request := { reqId := 99, ctx := [], payload := 0 } },
          some (PanicVal.str "x")))
        { request := { reqId := 5, ctx := [], payload := 3 }, response := 0 }).events
      = [(AttachRequestData (StartSession []) 5,
          { reqId := 5, ctx := [], payload := 3 }, PanicVal.str "x")]
    ∧ nextContexts (AutoNotifyRun []
        (fun g => ({ g with request := { reqId := 99, ctx := [], payload := 0 } },
          some (PanicVal.str "x")))
        { request := { reqId := 5, ctx := [], payload := 3 }, response := 0 }).events
      = [enrichedCtx
          { request := { reqId := 5, ctx := [], payload := 3 }, response := 0 }]
    ∧ (enrichedCtx
        { request := { reqId := 5, ctx := [], payload := 3 }, response := 0 }).request
      = Request.withCtx { reqId := 5, ctx := [], payload := 3 }
          (AttachRequestData (StartSession []) 5) :=
  autoNotify_report_args_fixed_at_entry [] _ _ _ rfl

/-- C10: the per-request notifier is constructed over the full original
raw-data sequence with the attribution metadata appended and then the
entry duplicate of the request appended, in that order; in particular no
Configuration value recognized at construction is removed from it. -/
theorem autoNotify_notifier_binds_full_rawdata (rawData : List RawDatum)
    (down : Downstream) (c : GinContext) :
    notifierArgLists (AutoNotifyRun rawData down c).events
      = [rawData ++ [RawDatum.hstate autoNotifyState, RawDatum.req c.request]]
    ∧ (rawData
        ++ [RawDatum.hstate autoNotifyState,
            RawDatum.req c.request]).filterMap RawDatum.asConfig
      = rawData.filterMap RawDatum.asConfig := by
  refine ⟨notifierArgLists_run_eq rawData down c, ?_⟩
  simp [List.filterMap_append, List.filterMap_cons, RawDatum.asConfig]
